import Mathlib

/-
Verification of the claude-memory-system workflow engine.

Shallow embedding of `src/claude_memory/core/workflow_enforcer.py`,
`src/claude_memory/core/context_loader.py` and the relevant parts of
`src/claude_memory/backends/file_backend.py`.

Modelling conventions:
* The on-disk state of a task is a `TaskState`: the three memory files
  (scratchpad / plan / progress), each an `Option MemFile` holding its
  content string and its read-only permission bit, plus the list of
  phase-transition lock files written by `lock_phase_transition`.
* `datetime.now()` and `_get_agent_info()` are ambient inputs in Python;
  they are threaded as explicit `ts` / `agent` string parameters.
* Operations that can `raise` are embedded in `Except MemError`; every
  `raise` in the source happens before any backend write, so an error
  result models an unchanged filesystem state (`stateAfter`).
* Python float comparisons (`overlap_ratio > 0.7`, `score > 0.5`) are
  modelled exactly over `ℚ`; the two coincide for all word-set sizes that
  fit well below 2^50, i.e. for every realizable file.
* The Python `str.lower`, `str.strip`, `\s` and `str.split()` are modelled
  on the ASCII whitespace classes (space, tab, newline, carriage return,
  vertical tab, form feed) and `Char.toLower`; the Python versions are
  additionally Unicode-aware, which no claim exercises.
* `file_lock` provides cross-process mutual exclusion; the embedding is
  sequential, so a lock acquisition is a no-op here.
-/

namespace ClaudeMemory

/-! ## Python string primitives -/

/-- ASCII approximation of the Python whitespace class used by
`str.strip`, `str.split()` and the regex class `\s`. -/
def pySpace (c : Char) : Bool :=
  c == ' ' || c == '\t' || c == '\n' || c == '\x0d' || c == '\x0b' || c == '\x0c'

/-- `str.strip()` on a character list: drop whitespace from both ends. -/
def pyStrip (l : List Char) : List Char :=
  ((l.dropWhile pySpace).reverse.dropWhile pySpace).reverse

/-- Collapse every maximal whitespace run to a single space, i.e.
the regex substitution of each whitespace-plus run by one space, as in
the `normalize` helper.  The boolean records whether the previous
character belonged to a whitespace run. -/
def collapseWSAux : Bool → List Char → List Char
  | _, [] => []
  | prevSpace, c :: rest =>
    if pySpace c then
      if prevSpace then collapseWSAux true rest
      else ' ' :: collapseWSAux true rest
    else c :: collapseWSAux false rest

/-- Python `s.startswith(pat)`.  (Structural stand-in for the String
library function, which the kernel cannot evaluate.) -/
def strStartsWith (s pat : String) : Bool := pat.data.isPrefixOf s.data

/-- Python `s.lower()` (ASCII). -/
def strLower (s : String) : String := String.mk (s.data.map Char.toLower)

/-- Python `s[:n]`: the first `n` characters. -/
def strTake (s : String) (n : Nat) : String := String.mk (s.data.take n)

/-- `normalize` from `WorkflowContextLoader.is_content_duplicate`:
lower-case, strip, then collapse each whitespace run to one space. -/
def pyNormalize (text : String) : String :=
  String.mk (collapseWSAux false (pyStrip (strLower text).data))

/-- `str.split()` with no argument: split on whitespace runs, dropping
empty fields.  `acc` holds the current word reversed. -/
def pySplitAux : List Char → List Char → List String
  | acc, [] => if acc.isEmpty then [] else [String.mk acc.reverse]
  | acc, c :: rest =>
    if pySpace c then
      if acc.isEmpty then pySplitAux [] rest
      else String.mk acc.reverse :: pySplitAux [] rest
    else pySplitAux (c :: acc) rest

/-- `str.split()` with no argument. -/
def pySplit (s : String) : List String := pySplitAux [] s.data

/-- Substring test on character lists (Python `in` on `str`). -/
def listContainsSub (pat : List Char) : List Char → Bool
  | [] => pat.isEmpty
  | c :: rest => pat.isPrefixOf (c :: rest) || listContainsSub pat rest

/-- Python `pat in s` for strings. -/
def strContains (s pat : String) : Bool := listContainsSub pat.data s.data

/-- Python `s.split(sep)` on character lists, scanning left to right and
splitting at each non-overlapping occurrence of `sep`.  The first
argument is fuel, instantiated with the length of the scanned list so
that the recursion is structural (the kernel cannot evaluate
well-founded recursion); with that much fuel the fuel case below is
never reached for a nonempty separator. -/
def splitOnSepFuel (sep : List Char) : Nat → List Char → List Char → List (List Char)
  | _, acc, [] => [acc.reverse]
  | 0, acc, l => [acc.reverse ++ l]
  | fuel + 1, acc, c :: rest =>
    if sep.isPrefixOf (c :: rest) then
      acc.reverse :: splitOnSepFuel sep fuel [] ((c :: rest).drop sep.length)
    else splitOnSepFuel sep fuel (c :: acc) rest

/-- Python `s.split(sep)` for a nonempty separator. -/
def pySplitOnSep (s sep : String) : List String :=
  (splitOnSepFuel sep.data s.data.length [] s.data).map String.mk

/-- The exact rational value of the Python float division `a / b` of two
nonnegative integers, via `mkRat` (which, unlike `Rat.div`, the kernel
can evaluate).  `mkRat a b = a / b` for `b ≠ 0`; see `ratOfFrac_eq_div`. -/
def ratOfFrac (a b : Nat) : ℚ := mkRat a b

/-! ## Data model -/

/-- `WorkflowPhase` enum from `workflow_enforcer.py`. -/
inductive WorkflowPhase
  | SETUP
  | DISCOVERY
  | PLANNING
  | EXECUTION
  | INVALID
deriving DecidableEq, Repr

/-- `.value` of the Python enum member. -/
def WorkflowPhase.value : WorkflowPhase → String
  | .SETUP => "SETUP"
  | .DISCOVERY => "DISCOVERY"
  | .PLANNING => "PLANNING"
  | .EXECUTION => "EXECUTION"
  | .INVALID => "INVALID"

/-- One memory file on disk: its text and its read-only permission bit
(`FileBackend.make_readonly` / `is_readonly`). -/
structure MemFile where
  content : String
  readonly : Bool
deriving DecidableEq, Repr

/-- The on-disk state of one task in one session: the three memory files
(`None` = file does not exist) and the phase-transition lock files
written by `lock_phase_transition` (name, content). -/
structure TaskState where
  scratchpad : Option MemFile
  plan : Option MemFile
  progress : Option MemFile
  locks : List (String × String)
deriving DecidableEq, Repr

/-- The exception kinds raised by the workflow enforcer. -/
inductive MemError
  | valueError (msg : String)
  | fileExistsError (msg : String)
deriving DecidableEq, Repr

/-! ## get_workflow_phase -/

/-- `WorkflowEnforcer.get_workflow_phase`: derive the phase from the
existence triple, following the Python `if/elif` chain verbatim. -/
def get_workflow_phase (s : TaskState) : WorkflowPhase × String :=
  if s.scratchpad.isNone && s.plan.isNone && s.progress.isNone then
    (.SETUP, "No files created - start with scratchpad")
  else if s.scratchpad.isSome && s.plan.isNone && s.progress.isNone then
    (.DISCOVERY, "Scratchpad exists - continue exploration or create plan")
  else if s.scratchpad.isSome && s.plan.isSome && s.progress.isNone then
    (.PLANNING, "Plan created - ready to begin execution")
  else if s.plan.isSome && s.progress.isSome then
    (.EXECUTION, "Implementation in progress")
  else if s.scratchpad.isNone && s.plan.isSome then
    (.INVALID, "Plan exists without scratchpad - invalid state")
  else
    (.INVALID, "Inconsistent file state")

/-- The phase truth table actually implemented by the code, as a function
of the existence triple (scratchpad, plan, progress).  It differs from
the table in the spec in the row (false, true, true), where the `elif plan and
progress` branch fires before the plan-without-scratchpad check. -/
def phaseTable : Bool → Bool → Bool → WorkflowPhase
  | false, false, false => .SETUP
  | true, false, false => .DISCOVERY
  | true, true, false => .PLANNING
  | true, true, true => .EXECUTION
  | false, true, true => .EXECUTION
  | false, true, false => .INVALID
  | true, false, true => .INVALID
  | false, false, true => .INVALID

/-! ## Templates and file names (legacy layout, storage root elided) -/

/-- `{task_name}-{session_id}-{kind}.md` under the task directory. -/
def filePath (task session kind : String) : String :=
  task ++ "-" ++ session ++ "-" ++ kind ++ ".md"

/-- `_get_scratchpad_template`. -/
def scratchpadTemplate (task session ts : String) : String :=
  "# " ++ task ++ " - Discovery Scratchpad\n\n**Created:** " ++ ts ++
  "\n**Session:** " ++ session ++
  "\n\n## Exploration Notes\n\n<!-- Use this space for messy exploration, questions, dead ends, and discoveries -->\n\n## Questions\n\n## Findings\n\n## Next Steps\n\n"

/-- `_get_plan_template`. -/
def planTemplate (task session ts : String) : String :=
  "# " ++ task ++ " - Implementation Plan\n\n**Created:** " ++ ts ++
  "\n**Session:** " ++ session ++
  "\n**Based on:** scratchpad discoveries\n\n## Problem Statement\n\n## Solution Approach\n\n## Implementation Steps\n\n1.\n2.\n3.\n\n## Success Criteria\n\n"

/-- `_get_progress_template`. -/
def progressTemplate (task session ts : String) : String :=
  "# " ++ task ++ " - Progress Tracking\n\n**Started:** " ++ ts ++
  "\n**Session:** " ++ session ++
  "\n\n## Implementation Progress\n\n<!-- Progress updates will be appended below -->\n"

/-- Name of the marker file written by `lock_phase_transition`. -/
def lockName (toPhase : WorkflowPhase) : String :=
  ".phase_" ++ strLower toPhase.value ++ "_lock"

/-- Content of the marker file written by `lock_phase_transition`. -/
def lockContent (fromPhase toPhase : WorkflowPhase) (agent ts session : String) : String :=
  "Phase transition lock\nTransitioned: " ++ fromPhase.value ++ " → " ++ toPhase.value ++
  "\nAgent: " ++ agent ++ "\nTimestamp: " ++ ts ++ "\nSession: " ++ session ++ "\n"

/-! ## State-changing operations -/

/-- `WorkflowEnforcer.create_scratchpad`.  Total: never raises. -/
def create_scratchpad (task session agent ts content : String) (s : TaskState) :
    TaskState × String :=
  let path := filePath task session "scratchpad"
  match s.scratchpad with
  | none =>
    let initial :=
      if content != "" then
        scratchpadTemplate task session ts ++
          "\n## Initial Content - " ++ agent ++ " - " ++ ts ++ "\n\n" ++ content ++ "\n"
      else scratchpadTemplate task session ts
    ({ s with scratchpad := some ⟨initial, false⟩ }, path)
  | some f =>
    if content != "" then
      let entry := "\n## Update - " ++ agent ++ " - " ++ ts ++ "\n\n" ++ content ++ "\n"
      ({ s with scratchpad := some ⟨f.content ++ entry, f.readonly⟩ }, path)
    else (s, path)

/-- `WorkflowEnforcer.create_plan` (write-once).  Both raises happen
before any write, so an error leaves the state unchanged. -/
def create_plan (task session agent ts content : String) (s : TaskState) :
    Except MemError (TaskState × String) :=
  if s.scratchpad.isNone then
    .error (.valueError "Cannot create plan without scratchpad")
  else if s.plan.isSome then
    .error (.fileExistsError "Plan already exists and is immutable")
  else
    let planContent := if content != "" then content else planTemplate task session ts
    let lock := (lockName .PLANNING, lockContent .DISCOVERY .PLANNING agent ts session)
    .ok ({ s with plan := some ⟨planContent, false⟩, locks := s.locks ++ [lock] },
         filePath task session "plan")

/-- The plan-acknowledgment keyword list from `append_progress`. -/
def ackKeywords : List String :=
  ["plan", "strategy", "approach", "based on", "following", "according to"]

/-- `any(keyword in content.lower() for keyword in plan_keywords)`. -/
def acknowledgesPlan (content : String) : Bool :=
  ackKeywords.any (fun k => strContains (strLower content) k)

/-- `plan_content[:300] + "..." if len(plan_content) > 300 else plan_content`. -/
def planSummaryOf (planContent : String) : String :=
  if planContent.length > 300 then strTake planContent 300 ++ "..." else planContent

/-- The multi-agent workflow violation message raised by `append_progress`. -/
def multiAgentMsg (agent summary : String) : String :=
  "Multi-agent workflow violation: New agent \x27" ++ agent ++
  "\x27 must acknowledge existing plan before contributing.\nCurrent plan summary:\n" ++
  summary ++
  "\n\nInclude plan references like: \x27Following the established plan...\x27, \x27Based on the plan strategy...\x27, etc."

/-- One appended progress section. -/
def progressEntry (agent ts content : String) : String :=
  "\n## Progress Update - " ++ agent ++ " - " ++ ts ++ "\n\n" ++ content ++ "\n"

/-- `WorkflowEnforcer.append_progress`.  On the first entry the plan file
is made read-only and the progress template is written; every call
appends one attributed section.  Both raises happen before any write. -/
def append_progress (task session agent ts content : String) (s : TaskState) :
    Except MemError (TaskState × String) :=
  match s.plan with
  | none => .error (.valueError "Cannot track progress without plan")
  | some pf =>
    let path := filePath task session "progress"
    match s.progress with
    | some qf =>
      if !(strContains qf.content agent) && !(acknowledgesPlan content) then
        .error (.valueError (multiAgentMsg agent (planSummaryOf pf.content)))
      else
        .ok ({ s with progress := some ⟨qf.content ++ progressEntry agent ts content, qf.readonly⟩ },
             path)
    | none =>
      let lock := (lockName .EXECUTION, lockContent .PLANNING .EXECUTION agent ts session)
      .ok ({ s with
              plan := some ⟨pf.content, true⟩,
              progress := some ⟨progressTemplate task session ts ++ progressEntry agent ts content, false⟩,
              locks := s.locks ++ [lock] },
           path)

/-- The phase-violation message raised by `update_plan`. -/
def cannotEditMsg (phase : WorkflowPhase) : String :=
  "❌ Cannot edit plan in " ++ phase.value ++
  " phase. Plan editing is only allowed during PLANNING phase."

/-- The revision marker appended by `update_plan` to incoming content that
does not start with a top-level heading.  The Revision History header is
added only when the ORIGINAL file content does not already contain one. -/
def revisionSuffix (originalContent agent ts : String) : String :=
  (if strContains originalContent "## Revision History" then "" else "\n\n## Revision History\n") ++
  "\n### Revised - " ++ agent ++ " - " ++ ts ++ "\n"

/-- `WorkflowEnforcer.update_plan`: allowed only in PLANNING phase and only
while the plan file is writable.  All raises happen before the write. -/
def update_plan (task session agent ts content : String) (s : TaskState) :
    Except MemError (TaskState × String) :=
  let phase := (get_workflow_phase s).1
  if phase != .PLANNING then
    .error (.valueError (cannotEditMsg phase))
  else
    match s.plan with
    | none => .error (.valueError "No plan exists to update")
    | some pf =>
      if pf.readonly then
        .error (.valueError "Plan is locked and cannot be edited")
      else
        let newContent :=
          if content != "" && !(strStartsWith content "# ") then
            content ++ revisionSuffix pf.content agent ts
          else content
        .ok ({ s with plan := some ⟨newContent, false⟩ }, filePath task session "plan")

/-- The state of the system after an operation: the returned state on
success; since every raise in the source precedes every write, the old
state on error. -/
def stateAfter (s : TaskState) (r : Except MemError (TaskState × String)) : TaskState :=
  match r with
  | .ok (s', _) => s'
  | .error _ => s

/-! ## validate_action -/

/-- The `allowed` lists of the `phase_rules` table. -/
def phaseAllowed : WorkflowPhase → List String
  | .SETUP => ["scratchpad"]
  | .DISCOVERY => ["scratchpad", "ensure"]
  | .PLANNING => ["append", "ensure"]
  | .EXECUTION => ["append"]
  | .INVALID => []

/-- The `blocked` lists of the `phase_rules` table. -/
def phaseBlocked : WorkflowPhase → List String
  | .SETUP => ["ensure", "append"]
  | .DISCOVERY => ["append"]
  | .PLANNING => ["scratchpad"]
  | .EXECUTION => ["scratchpad", "ensure"]
  | .INVALID => ["scratchpad", "ensure", "append"]

/-- The INVALID-phase guidance string. -/
def invalidGuidance (task : String) : String :=
  "❌ Invalid state detected! Check task status: claude-memory status \x27" ++ task ++ "\x27"

/-- The `guidance` maps of the `phase_rules` table. -/
def phaseGuidance (task : String) : WorkflowPhase → String → Option String
  | .SETUP, "ensure" => some ("❌ Cannot create plan yet! Start with exploration: claude-memory scratchpad \x27" ++ task ++ "\x27 --content \x27exploration notes\x27")
  | .SETUP, "append" => some ("❌ Cannot track progress yet! Start with exploration: claude-memory scratchpad \x27" ++ task ++ "\x27 --content \x27exploration notes\x27")
  | .DISCOVERY, "append" => some ("❌ Cannot track progress yet! Complete discovery, then create plan: claude-memory plan \x27" ++ task ++ "\x27 --content \x27implementation plan\x27")
  | .PLANNING, "scratchpad" => some ("❌ Discovery phase is complete! Review/edit plan or begin execution: claude-memory edit-plan \x27" ++ task ++ "\x27 or claude-memory append \x27" ++ task ++ "\x27 \x27progress update\x27")
  | .EXECUTION, "scratchpad" => some ("❌ Discovery phase is complete! Continue implementation: claude-memory append \x27" ++ task ++ "\x27 \x27progress update\x27")
  | .EXECUTION, "ensure" => some ("❌ Plan is locked and execution has started! Continue implementation: claude-memory append \x27" ++ task ++ "\x27 \x27progress update\x27")
  | .INVALID, "scratchpad" => some (invalidGuidance task)
  | .INVALID, "ensure" => some (invalidGuidance task)
  | .INVALID, "append" => some (invalidGuidance task)
  | _, _ => none

/-- The `success` strings of the `phase_rules` table. -/
def phaseSuccess : WorkflowPhase → String
  | .SETUP => "✓ Starting discovery phase with scratchpad"
  | .DISCOVERY => "✓ Continue exploration or create implementation plan"
  | .PLANNING => "✓ Plan is ready for review. You can edit it or begin execution"
  | .EXECUTION => "✓ Continue tracking progress with append"
  | .INVALID => "Manual review required"

/-- `WorkflowEnforcer.validate_action` in the legacy (fallback)
configuration: the `_get_active_tasks_in_session()` directory scan is
supplied as the `activeTasks` parameter; the context-aware pre-checks of
the coordination layer are layered before this function and modelled
separately (`validate_contribution` in the source). -/
def validate_action (task : String) (activeTasks : List String) (s : TaskState)
    (action : String) : Bool × String :=
  let otherTasks :=
    if action == "scratchpad" && (get_workflow_phase s).1 == .SETUP then
      activeTasks.filter (fun t => t != task)
    else []
  if !otherTasks.isEmpty then
    (false, "Single-task-per-session rule: Active task(s) \x27" ++
      String.intercalate ", " otherTasks ++
      "\x27 exist. Complete current task before starting \x27" ++ task ++ "\x27")
  else
    let phase := (get_workflow_phase s).1
    let desc := (get_workflow_phase s).2
    if (phaseBlocked phase).contains action then
      (false, (phaseGuidance task phase action).getD
        ("Action \x27" ++ action ++ "\x27 not allowed in " ++ phase.value ++ " phase"))
    else if !((phaseAllowed phase).contains action) then
      (false, "❌ Invalid action \x27" ++ action ++ "\x27 for " ++ phase.value ++
        " phase. Current state: " ++ desc)
    else
      (true, phaseSuccess phase)

/-! ## validate_file_integrity -/

/-- An existing file with empty content (`stat().st_size == 0`). -/
def fileEmpty : Option MemFile → Bool
  | some f => f.content == ""
  | none => false

/-- `_is_readonly` on the plan file (`False` when the file is missing). -/
def planReadonlyB (s : TaskState) : Bool :=
  match s.plan with
  | some pf => pf.readonly
  | none => false

/-- `WorkflowEnforcer.validate_file_integrity`, issues in source order.
Note the read-only check fires for every writable plan, with or without
progress entries. -/
def validate_file_integrity (s : TaskState) : List String :=
  (if s.plan.isSome && !s.scratchpad.isSome then ["Plan exists without scratchpad"] else []) ++
  (if s.progress.isSome && !s.plan.isSome then ["Progress exists without plan"] else []) ++
  (if s.plan.isSome && !(planReadonlyB s) then ["Plan file is not read-only (should be immutable)"] else []) ++
  (if fileEmpty s.scratchpad then ["scratchpad file is empty"] else []) ++
  (if fileEmpty s.plan then ["plan file is empty"] else []) ++
  (if fileEmpty s.progress then ["progress file is empty"] else [])

/-! ## Context loader: duplication heuristics -/

/-- `set(s.split())` as a `Finset`. -/
def wordsOf (s : String) : Finset String := (pySplit s).toFinset

/-- `WorkflowContextLoader.is_content_duplicate`.  The float comparison
`overlap_ratio > 0.7` is modelled exactly over `ℚ`. -/
def is_content_duplicate (newContent existingContent : String) : Bool :=
  if existingContent == "" || newContent == "" then false
  else
    let newNorm := pyNormalize newContent
    let existingNorm := pyNormalize existingContent
    if newNorm.length < 20 then false
    else
      let wordsNew := wordsOf newNorm
      let wordsExisting := wordsOf existingNorm
      if wordsNew.card = 0 then false
      else decide (ratOfFrac ((wordsNew ∩ wordsExisting).card) wordsNew.card > ratOfFrac 7 10)

/-- The paragraph list scanned by `find_similar_content`: split the
existing content on blank lines, strip, drop empties. -/
def paragraphsOf (existing : String) : List String :=
  ((pySplitOnSep existing "\n\n").map (fun p => String.mk (pyStrip p.data))).filter (fun p => p != "")

/-- The per-paragraph score of `find_similar_content`:
`len(new_words ∩ para_words) / len(para_words)`; a paragraph with no
words is skipped in the source, which coincides with scoring it 0. -/
def paraScore (newWords : Finset String) (para : String) : ℚ :=
  let paraWords := wordsOf (strLower para)
  if paraWords.card = 0 then 0
  else ratOfFrac ((newWords ∩ paraWords).card) paraWords.card

/-- One iteration of the best-match loop of `find_similar_content`. -/
def bestStep (newWords : Finset String) (best : Option String × ℚ) (para : String) :
    Option String × ℚ :=
  let score := paraScore newWords para
  if score > best.2 ∧ score > ratOfFrac 1 2 then (some para, score) else best

/-- `WorkflowContextLoader.find_similar_content`. -/
def find_similar_content (newContent existingContent : String) : Option String :=
  if !(is_content_duplicate newContent existingContent) then none
  else
    let newWords := wordsOf (strLower newContent)
    let best := (paragraphsOf existingContent).foldl (bestStep newWords) (none, 0)
    match best.1 with
    | none => none
    | some bm => if bm.length > 300 then some (strTake bm 300 ++ "...") else some bm

/-! ## Derived notions used by the claims -/

/-- The plan-lock invariant of §3: once any progress entry exists, the
plan file exists and is read-only. -/
def planLockedInv (s : TaskState) : Bool :=
  match s.progress, s.plan with
  | some _, some pf => pf.readonly
  | some _, none => false
  | none, _ => true

/-- Run a list of `append_progress` calls (agent, timestamp, content) in
order, stopping at the first error. -/
def appendProgressRun (task session : String) :
    List (String × String × String) → TaskState → Except MemError TaskState
  | [], s => .ok s
  | (agent, ts, content) :: rest, s =>
    match append_progress task session agent ts content s with
    | .error e => .error e
    | .ok (s', _) => appendProgressRun task session rest s'

/-- The progress section produced by one `append_progress` call. -/
def entryOfCall : String × String × String → String
  | (agent, ts, content) => progressEntry agent ts content

/-- Left-to-right concatenation of a list of strings onto a base, the
shape in which `append_progress` grows the progress file. -/
def appendAll (base : String) (l : List String) : String :=
  l.foldl (fun a b => a ++ b) base

/-- Modelled from the spec: the three §3 invariants plus no existing file
empty, the condition claim C8 equates with an empty issue list. -/
def specIntegrityOK (s : TaskState) : Bool :=
  (!s.plan.isSome || s.scratchpad.isSome) &&
  (!s.progress.isSome || s.plan.isSome) &&
  (!s.progress.isSome || planReadonlyB s) &&
  (!(fileEmpty s.scratchpad) && !(fileEmpty s.plan) && !(fileEmpty s.progress))

/-- Modelled from the spec: the §4.2 duplication overlap formula,
`|words(new) ∩ words(existing)| / |words(new)|` over normalized content
(0 when the new content has no words). -/
def specOverlapFrac (newContent existingContent : String) : ℚ :=
  let wn := wordsOf (pyNormalize newContent)
  let we := wordsOf (pyNormalize existingContent)
  if wn.card = 0 then 0 else ratOfFrac ((wn ∩ we).card) wn.card

/-- Modelled from the spec: `is_content_duplicate` as claim C7 words it:
normalized new content at least 20 characters and overlap above 0.70. -/
def specDuplicate (newContent existingContent : String) : Bool :=
  decide (20 ≤ (pyNormalize newContent).length) &&
  decide (ratOfFrac 7 10 < specOverlapFrac newContent existingContent)

/-- Modelled from the spec: the score claim C7 assigns to a paragraph,
namely THE SAME overlap formula applied against the new content, whose
denominator is the word count of the NEW content. -/
def specParaFrac (newContent para : String) : ℚ :=
  let wn := wordsOf (pyNormalize newContent)
  let pw := wordsOf (pyNormalize para)
  if wn.card = 0 then 0 else ratOfFrac ((wn ∩ pw).card) wn.card

/-- Modelled from the spec: `find_similar_content` as claim C7 words it:
score every blank-line paragraph by `specParaFrac`, return the highest
scorer above 0.50 truncated to 300 characters, or none; no duplicate
gate is mentioned. -/
def findSimilarClaimed (newContent existingContent : String) : Option String :=
  let best := (paragraphsOf existingContent).foldl
    (fun best para =>
      let score := specParaFrac newContent para
      if score > best.2 ∧ score > ratOfFrac 1 2 then (some para, score) else best)
    ((none : Option String), (0 : ℚ))
  match best.1 with
  | none => none
  | some bm => if bm.length > 300 then some (strTake bm 300 ++ "...") else some bm

/-- Counterexample state for C1: plan and progress without scratchpad. -/
def c1State : TaskState := ⟨none, some ⟨"plan body", true⟩, some ⟨"progress body", false⟩, []⟩

/-- Counterexample state for C8: PLANNING state, plan writable, no file
empty. -/
def c8State : TaskState := ⟨some ⟨"notes", false⟩, some ⟨"plan body", false⟩, none, []⟩

/-- Counterexample state for C9: PLANNING state whose plan content is the
marker OLDMARKER. -/
def c9State : TaskState := ⟨some ⟨"notes", false⟩, some ⟨"OLDMARKER", false⟩, none, []⟩

/-- Modelled from the spec: the §4.1 allow/block table as the claim C2
states it (true = allowed), for the three actions. -/
def specActionAllowed : WorkflowPhase → String → Bool
  | .SETUP, "scratchpad" => true
  | .DISCOVERY, "scratchpad" => true
  | .DISCOVERY, "ensure" => true
  | .PLANNING, "ensure" => true
  | .PLANNING, "append" => true
  | .EXECUTION, "append" => true
  | _, _ => false

/-- The pair `validate_action` is expected to return for one of the three
actions: the §4.1 verdict together with the success message when allowed
and the action-specific corrective guidance when blocked. -/
def expectedActionResult (task : String) (phase : WorkflowPhase) (action : String) :
    Bool × String :=
  (specActionAllowed phase action,
   if specActionAllowed phase action then phaseSuccess phase
   else (phaseGuidance task phase action).getD "")

/-! ## Helper lemmas: operation results by case -/

/-- No progress file: the plan-lock invariant holds trivially. -/
lemma planLockedInv_no_progress (sp pl : Option MemFile) (lk : List (String × String)) :
    planLockedInv ⟨sp, pl, none, lk⟩ = true := rfl

/-- Progress and plan both exist: the invariant is the read-only bit. -/
lemma planLockedInv_some_some (sp : Option MemFile) (pf qf : MemFile)
    (lk : List (String × String)) :
    planLockedInv ⟨sp, some pf, some qf, lk⟩ = pf.readonly := rfl

/-- Progress without plan: the invariant fails. -/
lemma planLockedInv_progress_no_plan (sp : Option MemFile) (qf : MemFile)
    (lk : List (String × String)) :
    planLockedInv ⟨sp, none, some qf, lk⟩ = false := rfl

/-- Plan and progress both present derive the EXECUTION phase. -/
lemma get_workflow_phase_exec (sp : Option MemFile) (pf qf : MemFile)
    (lk : List (String × String)) :
    (get_workflow_phase ⟨sp, some pf, some qf, lk⟩).1 = .EXECUTION := by
  cases sp <;> rfl

/-- `create_scratchpad` on a task with no scratchpad. -/
lemma create_scratchpad_none_eq (task session agent ts content : String)
    (pl pr : Option MemFile) (lk : List (String × String)) :
    create_scratchpad task session agent ts content ⟨none, pl, pr, lk⟩ =
      (⟨some ⟨(if content != "" then
                scratchpadTemplate task session ts ++
                  "\n## Initial Content - " ++ agent ++ " - " ++ ts ++ "\n\n" ++ content ++ "\n"
              else scratchpadTemplate task session ts), false⟩, pl, pr, lk⟩,
       filePath task session "scratchpad") := rfl

/-- `create_scratchpad` on a task with an existing scratchpad. -/
lemma create_scratchpad_some_eq (task session agent ts content : String)
    (f : MemFile) (pl pr : Option MemFile) (lk : List (String × String)) :
    create_scratchpad task session agent ts content ⟨some f, pl, pr, lk⟩ =
      (if content != "" then
        (⟨some ⟨f.content ++ ("\n## Update - " ++ agent ++ " - " ++ ts ++ "\n\n" ++ content ++ "\n"),
              f.readonly⟩, pl, pr, lk⟩,
         filePath task session "scratchpad")
      else (⟨some f, pl, pr, lk⟩, filePath task session "scratchpad")) := rfl

/-- `create_plan` without a scratchpad. -/
lemma create_plan_no_scratchpad_eq (task session agent ts content : String)
    (pl pr : Option MemFile) (lk : List (String × String)) :
    create_plan task session agent ts content ⟨none, pl, pr, lk⟩ =
      .error (.valueError "Cannot create plan without scratchpad") := rfl

/-- `create_plan` when a plan already exists. -/
lemma create_plan_exists_eq (task session agent ts content : String)
    (f pf : MemFile) (pr : Option MemFile) (lk : List (String × String)) :
    create_plan task session agent ts content ⟨some f, some pf, pr, lk⟩ =
      .error (.fileExistsError "Plan already exists and is immutable") := rfl

/-- `create_plan` success case. -/
lemma create_plan_ok_eq (task session agent ts content : String)
    (f : MemFile) (pr : Option MemFile) (lk : List (String × String)) :
    create_plan task session agent ts content ⟨some f, none, pr, lk⟩ =
      .ok (⟨some f,
            some ⟨(if content != "" then content else planTemplate task session ts), false⟩, pr,
            lk ++ [(lockName .PLANNING, lockContent .DISCOVERY .PLANNING agent ts session)]⟩,
           filePath task session "plan") := rfl

/-- `append_progress` without a plan. -/
lemma append_progress_no_plan_eq (task session agent ts content : String)
    (sp pr : Option MemFile) (lk : List (String × String)) :
    append_progress task session agent ts content ⟨sp, none, pr, lk⟩ =
      .error (.valueError "Cannot track progress without plan") := rfl

/-- `append_progress` first call: write template, lock the plan, append
one section. -/
lemma append_progress_first_eq (task session agent ts content : String)
    (sp : Option MemFile) (pf : MemFile) (lk : List (String × String)) :
    append_progress task session agent ts content ⟨sp, some pf, none, lk⟩ =
      .ok (⟨sp, some ⟨pf.content, true⟩,
            some ⟨progressTemplate task session ts ++ progressEntry agent ts content, false⟩,
            lk ++ [(lockName .EXECUTION, lockContent .PLANNING .EXECUTION agent ts session)]⟩,
           filePath task session "progress") := rfl

/-- `append_progress` with an existing progress file: the acknowledgment
gate, then a plain append. -/
lemma append_progress_existing_eq (task session agent ts content : String)
    (sp : Option MemFile) (pf qf : MemFile) (lk : List (String × String)) :
    append_progress task session agent ts content ⟨sp, some pf, some qf, lk⟩ =
      (if !(strContains qf.content agent) && !(acknowledgesPlan content) then
        .error (.valueError (multiAgentMsg agent (planSummaryOf pf.content)))
      else
        .ok (⟨sp, some pf, some ⟨qf.content ++ progressEntry agent ts content, qf.readonly⟩, lk⟩,
             filePath task session "progress")) := rfl

/-- `update_plan` when plan and progress exist: EXECUTION phase violation. -/
lemma update_plan_exec_eq (task session agent ts content : String)
    (sp : Option MemFile) (pf qf : MemFile) (lk : List (String × String)) :
    update_plan task session agent ts content ⟨sp, some pf, some qf, lk⟩ =
      .error (.valueError (cannotEditMsg .EXECUTION)) := by
  cases sp <;> rfl

/-- `update_plan` on progress without plan: INVALID phase violation. -/
lemma update_plan_orphan_progress_eq (task session agent ts content : String)
    (sp : Option MemFile) (qf : MemFile) (lk : List (String × String)) :
    update_plan task session agent ts content ⟨sp, none, some qf, lk⟩ =
      .error (.valueError (cannotEditMsg .INVALID)) := by
  cases sp <;> rfl

/-- `update_plan` in the PLANNING shape: locked check, then overwrite with
the revision marker appended to content that is not a fresh document. -/
lemma update_plan_planning_eq (task session agent ts content : String)
    (f pf : MemFile) (lk : List (String × String)) :
    update_plan task session agent ts content ⟨some f, some pf, none, lk⟩ =
      (if pf.readonly then .error (.valueError "Plan is locked and cannot be edited")
       else
        .ok (⟨some f,
              some ⟨(if content != "" && !(strStartsWith content "# ") then
                      content ++ revisionSuffix pf.content agent ts
                    else content), false⟩, none, lk⟩,
             filePath task session "plan")) := rfl

/-- `update_plan` with no files at all: SETUP phase violation. -/
lemma update_plan_setup_eq (task session agent ts content : String)
    (lk : List (String × String)) :
    update_plan task session agent ts content ⟨none, none, none, lk⟩ =
      .error (.valueError (cannotEditMsg .SETUP)) := rfl

/-- `update_plan` with only a scratchpad: DISCOVERY phase violation. -/
lemma update_plan_discovery_eq (task session agent ts content : String)
    (f : MemFile) (lk : List (String × String)) :
    update_plan task session agent ts content ⟨some f, none, none, lk⟩ =
      .error (.valueError (cannotEditMsg .DISCOVERY)) := rfl

/-- `update_plan` on a plan without scratchpad: INVALID phase violation. -/
lemma update_plan_orphan_plan_eq (task session agent ts content : String)
    (pf : MemFile) (lk : List (String × String)) :
    update_plan task session agent ts content ⟨none, some pf, none, lk⟩ =
      .error (.valueError (cannotEditMsg .INVALID)) := rfl

/-! ## C1 -/

/-- C1 counterexample: when a plan file and a progress file exist without
a scratchpad — a combination violating the plan-implies-scratchpad
invariant — `get_workflow_phase` returns EXECUTION, not the INVALID the
claim requires. -/
theorem c1_counterexample :
    c1State.scratchpad.isNone = true ∧ c1State.plan.isSome = true ∧
    c1State.progress.isSome = true ∧
    (get_workflow_phase c1State).1 = WorkflowPhase.EXECUTION ∧
    WorkflowPhase.EXECUTION ≠ WorkflowPhase.INVALID :=
  ⟨rfl, rfl, rfl, rfl, by decide⟩

/-- C1 (amended): `get_workflow_phase` is determined solely by the
existence triple, via the truth table `phaseTable`: SETUP when none of
the three files exist, DISCOVERY when only the scratchpad exists,
PLANNING when scratchpad and plan exist but no progress, EXECUTION
whenever plan and progress both exist — including when the scratchpad is
missing — and INVALID for the remaining invariant-violating
combinations. -/
theorem c1_phase_table (s : TaskState) :
    (get_workflow_phase s).1 = phaseTable s.scratchpad.isSome s.plan.isSome s.progress.isSome := by
  rcases s with ⟨sp, pl, pr, lk⟩
  cases sp <;> cases pl <;> cases pr <;> rfl

/-! ## C2 -/

/-- C2: for every task state and each of the three actions, the legacy
`validate_action` (no other active task in the session) returns exactly
the §4.1 verdict for the phase derived from the state: allowed = true
with the confirmatory message for the pairs the table allows, and
allowed = false with the action-specific corrective guidance for the
pairs the table blocks (SETUP blocks ensure and append; DISCOVERY blocks
append; PLANNING blocks scratchpad; EXECUTION blocks scratchpad and
ensure; INVALID blocks all three). -/
theorem c2_validate_action_table (task : String) (s : TaskState) :
    validate_action task [] s "scratchpad" =
      expectedActionResult task (get_workflow_phase s).1 "scratchpad" ∧
    validate_action task [] s "ensure" =
      expectedActionResult task (get_workflow_phase s).1 "ensure" ∧
    validate_action task [] s "append" =
      expectedActionResult task (get_workflow_phase s).1 "append" := by
  rcases s with ⟨sp, pl, pr, lk⟩
  cases sp <;> cases pl <;> cases pr <;> exact ⟨rfl, rfl, rfl⟩

/-! ## C3 -/

/-- C3: `create_plan` fails with the precondition error when no
scratchpad exists; fails with the already-exists error when a plan file
already exists, and this failure leaves the existing plan content
unchanged; otherwise it writes the given content, or the plan template
when the content is empty. -/
theorem c3_create_plan (task session agent ts content : String) (s : TaskState) :
    (s.scratchpad = none →
      create_plan task session agent ts content s =
        .error (.valueError "Cannot create plan without scratchpad")) ∧
    (∀ sf pf, s.scratchpad = some sf → s.plan = some pf →
      create_plan task session agent ts content s =
        .error (.fileExistsError "Plan already exists and is immutable") ∧
      (stateAfter s (create_plan task session agent ts content s)).plan = some pf) ∧
    (∀ sf, s.scratchpad = some sf → s.plan = none →
      create_plan task session agent ts content s =
        .ok ({ s with
                plan := some ⟨if content != "" then content else planTemplate task session ts, false⟩,
                locks := s.locks ++ [(lockName .PLANNING, lockContent .DISCOVERY .PLANNING agent ts session)] },
             filePath task session "plan")) := by
  refine ⟨fun h => ?_, fun sf pf hs hp => ?_, fun sf hs hp => ?_⟩
  · simp [create_plan, h]
  · have he : create_plan task session agent ts content s =
        .error (.fileExistsError "Plan already exists and is immutable") := by
      simp [create_plan, hs, hp]
    exact ⟨he, by simp [stateAfter, he, hp]⟩
  · simp [create_plan, hs, hp]

/-- C3 witness: the three cases of `c3_create_plan` at concrete inputs:
a SETUP state, a PLANNING state with an existing plan, and a DISCOVERY
state. -/
theorem c3_create_plan_witness :
    create_plan "t" "s1" "A" "T" "body" ⟨none, none, none, []⟩ =
      .error (.valueError "Cannot create plan without scratchpad") ∧
    create_plan "t" "s1" "A" "T" "body" ⟨some ⟨"n", false⟩, some ⟨"old", false⟩, none, []⟩ =
      .error (.fileExistsError "Plan already exists and is immutable") ∧
    (stateAfter ⟨some ⟨"n", false⟩, some ⟨"old", false⟩, none, []⟩
        (create_plan "t" "s1" "A" "T" "body" ⟨some ⟨"n", false⟩, some ⟨"old", false⟩, none, []⟩)).plan =
      some ⟨"old", false⟩ ∧
    create_plan "t" "s1" "A" "T" "body" ⟨some ⟨"n", false⟩, none, none, []⟩ =
      .ok (⟨some ⟨"n", false⟩, some ⟨"body", false⟩, none,
            [(lockName .PLANNING, lockContent .DISCOVERY .PLANNING "A" "T" "s1")]⟩,
           "t-s1-plan.md") := by
  refine ⟨(c3_create_plan "t" "s1" "A" "T" "body" _).1 rfl,
          ((c3_create_plan "t" "s1" "A" "T" "body" _).2.1 ⟨"n", false⟩ ⟨"old", false⟩ rfl rfl).1,
          ((c3_create_plan "t" "s1" "A" "T" "body" _).2.1 ⟨"n", false⟩ ⟨"old", false⟩ rfl rfl).2,
          ?_⟩
  have h := (c3_create_plan "t" "s1" "A" "T" "body" ⟨some ⟨"n", false⟩, none, none, []⟩).2.2
    ⟨"n", false⟩ rfl rfl
  simpa using h

/-! ## C10 -/

/-- C10: calling `create_scratchpad` with empty content when a scratchpad
already exists leaves the whole task state unchanged (no empty Update
section is appended); when no scratchpad exists it writes exactly the
template, with no Initial Content section; in both cases it returns the
scratchpad path. -/
theorem c10_create_scratchpad_empty (task session agent ts : String) (s : TaskState) :
    (∀ f, s.scratchpad = some f →
      create_scratchpad task session agent ts "" s = (s, filePath task session "scratchpad")) ∧
    (s.scratchpad = none →
      create_scratchpad task session agent ts "" s =
        ({ s with scratchpad := some ⟨scratchpadTemplate task session ts, false⟩ },
         filePath task session "scratchpad")) := by
  constructor
  · intro f h
    simp [create_scratchpad, h]
  · intro h
    simp [create_scratchpad, h]

/-- C10 witness: both cases of `c10_create_scratchpad_empty` at concrete
inputs. -/
theorem c10_create_scratchpad_empty_witness :
    create_scratchpad "t" "s1" "A" "T" "" ⟨some ⟨"existing notes", false⟩, none, none, []⟩ =
      (⟨some ⟨"existing notes", false⟩, none, none, []⟩, "t-s1-scratchpad.md") ∧
    create_scratchpad "t" "s1" "A" "T" "" ⟨none, none, none, []⟩ =
      (⟨some ⟨scratchpadTemplate "t" "s1" "T", false⟩, none, none, []⟩, "t-s1-scratchpad.md") := by
  refine ⟨(c10_create_scratchpad_empty "t" "s1" "A" "T" _).1 ⟨"existing notes", false⟩ rfl, ?_⟩
  have h := (c10_create_scratchpad_empty "t" "s1" "A" "T" ⟨none, none, none, []⟩).2 rfl
  simpa using h

/-! ## C4 -/

/-- C4: once the first `append_progress` call has completed, the plan
file is read-only; every operation preserves the invariant that an
existing progress file implies a read-only plan; and once a progress
file exists, `update_plan` fails with the phase-violation error naming
the EXECUTION phase. -/
theorem c4_plan_immutable (task session agent ts content : String) (s : TaskState) :
    (planLockedInv s = true →
      planLockedInv (create_scratchpad task session agent ts content s).1 = true) ∧
    (planLockedInv s = true →
      planLockedInv (stateAfter s (create_plan task session agent ts content s)) = true) ∧
    (planLockedInv s = true →
      planLockedInv (stateAfter s (append_progress task session agent ts content s)) = true) ∧
    (planLockedInv s = true →
      planLockedInv (stateAfter s (update_plan task session agent ts content s)) = true) ∧
    (∀ s' p, s.progress = none →
      append_progress task session agent ts content s = .ok (s', p) →
      s'.progress.isSome = true ∧ ∃ pf, s'.plan = some pf ∧ pf.readonly = true) ∧
    (∀ qf, planLockedInv s = true → s.progress = some qf →
      (get_workflow_phase s).1 = .EXECUTION ∧
      update_plan task session agent ts content s =
        .error (.valueError (cannotEditMsg .EXECUTION))) := by
  rcases s with ⟨sp, pl, pr, lk⟩
  refine ⟨fun h => ?_, fun h => ?_, fun h => ?_, fun h => ?_, fun s' p hpr hok => ?_,
          fun qf h hpr => ?_⟩
  · cases sp with
    | none => rw [create_scratchpad_none_eq]; exact h
    | some f => rw [create_scratchpad_some_eq]; split <;> exact h
  · cases sp with
    | none => rw [create_plan_no_scratchpad_eq]; exact h
    | some f =>
      cases pl with
      | some pf => rw [create_plan_exists_eq]; exact h
      | none =>
        cases pr with
        | some qf => rw [planLockedInv_progress_no_plan] at h; exact absurd h (by decide)
        | none => rw [create_plan_ok_eq]; exact planLockedInv_no_progress ..
  · cases pl with
    | none => rw [append_progress_no_plan_eq]; exact h
    | some pf =>
      cases pr with
      | none => rw [append_progress_first_eq]; rfl
      | some qf =>
        rw [append_progress_existing_eq]
        split
        · exact h
        · exact h
  · cases pr with
    | some qf =>
      cases pl with
      | some pf => rw [update_plan_exec_eq]; exact h
      | none => rw [update_plan_orphan_progress_eq]; exact h
    | none =>
      cases pl with
      | none =>
        cases sp with
        | none => rw [update_plan_setup_eq]; exact h
        | some f => rw [update_plan_discovery_eq]; exact h
      | some pf =>
        cases sp with
        | none => rw [update_plan_orphan_plan_eq]; exact h
        | some f =>
          rw [update_plan_planning_eq]
          split
          · exact h
          · exact planLockedInv_no_progress ..
  · subst hpr
    cases pl with
    | none => rw [append_progress_no_plan_eq] at hok; exact absurd hok (by simp)
    | some pf =>
      rw [append_progress_first_eq] at hok
      rw [Except.ok.injEq, Prod.mk.injEq] at hok
      obtain ⟨hs', _⟩ := hok
      subst hs'
      exact ⟨rfl, ⟨pf.content, true⟩, rfl, rfl⟩
  · subst hpr
    cases pl with
    | none => rw [planLockedInv_progress_no_plan] at h; exact absurd h (by decide)
    | some pf =>
      exact ⟨get_workflow_phase_exec .., update_plan_exec_eq ..⟩

/-- C4 witness: the invariant preservation, first-append lock, and
EXECUTION-phase `update_plan` failure of `c4_plan_immutable` at concrete
states. -/
theorem c4_plan_immutable_witness :
    planLockedInv (stateAfter
      (⟨some ⟨"n", false⟩, some ⟨"p", true⟩, some ⟨"done by A", false⟩, []⟩ : TaskState)
      (append_progress "t" "s1" "A" "T" "more work"
        ⟨some ⟨"n", false⟩, some ⟨"p", true⟩, some ⟨"done by A", false⟩, []⟩)) = true ∧
    ((⟨some ⟨"n", false⟩, some ⟨"p", true⟩,
        some ⟨progressTemplate "t" "s1" "T" ++ progressEntry "A" "T" "start", false⟩,
        [(lockName .EXECUTION, lockContent .PLANNING .EXECUTION "A" "T" "s1")]⟩ :
          TaskState).progress.isSome = true ∧
      ∃ pf, (⟨some ⟨"n", false⟩, some ⟨"p", true⟩,
        some ⟨progressTemplate "t" "s1" "T" ++ progressEntry "A" "T" "start", false⟩,
        [(lockName .EXECUTION, lockContent .PLANNING .EXECUTION "A" "T" "s1")]⟩ :
          TaskState).plan = some pf ∧ pf.readonly = true) ∧
    (get_workflow_phase ⟨some ⟨"n", false⟩, some ⟨"p", true⟩, some ⟨"done by A", false⟩, []⟩).1 =
      .EXECUTION ∧
    update_plan "t" "s1" "A" "T" "x"
        ⟨some ⟨"n", false⟩, some ⟨"p", true⟩, some ⟨"done by A", false⟩, []⟩ =
      .error (.valueError (cannotEditMsg .EXECUTION)) := by
  refine ⟨(c4_plan_immutable "t" "s1" "A" "T" "more work" _).2.2.1 rfl, ?_, ?_⟩
  · exact (c4_plan_immutable "t" "s1" "A" "T" "start"
      ⟨some ⟨"n", false⟩, some ⟨"p", false⟩, none, []⟩).2.2.2.2.1 _ _ rfl rfl
  · exact (c4_plan_immutable "t" "s1" "A" "T" "x" _).2.2.2.2.2 ⟨"done by A", false⟩ rfl rfl

/-! ## C6 -/

/-- C6: when the progress file already exists and the calling agent does
not occur in it, `append_progress` fails — with the multi-agent message
echoing the first 300 characters of the plan — exactly when the new
content, lowercased, contains none of the acknowledgment keywords; any
content containing one of the keywords passes the check and is appended. -/
theorem c6_acknowledgment_gate (task session agent ts content : String) (s : TaskState)
    (pf qf : MemFile) :
    s.plan = some pf → s.progress = some qf →
    strContains qf.content agent = false →
    ((append_progress task session agent ts content s =
        .error (.valueError (multiAgentMsg agent (planSummaryOf pf.content)))
      ↔ acknowledgesPlan content = false) ∧
     (acknowledgesPlan content = true →
       append_progress task session agent ts content s =
         .ok ({ s with progress := some ⟨qf.content ++ progressEntry agent ts content, qf.readonly⟩ },
              filePath task session "progress"))) := by
  intro hpl hpr hagent
  rcases s with ⟨sp, pl, pr, lk⟩
  obtain rfl : pl = some pf := hpl
  obtain rfl : pr = some qf := hpr
  rw [append_progress_existing_eq, hagent]
  cases hack : acknowledgesPlan content <;> simp [hack]

/-- C6 witness: with plan "P" and progress written by another agent, the
content "did stuff" is rejected with the plan-echoing message and the
content "following the plan" is appended. -/
theorem c6_acknowledgment_gate_witness :
    append_progress "t" "s1" "A" "T" "did stuff"
        ⟨none, some ⟨"P", true⟩, some ⟨"prog by B", false⟩, []⟩ =
      .error (.valueError (multiAgentMsg "A" (planSummaryOf "P"))) ∧
    append_progress "t" "s1" "A" "T" "following the plan"
        ⟨none, some ⟨"P", true⟩, some ⟨"prog by B", false⟩, []⟩ =
      .ok (⟨none, some ⟨"P", true⟩,
            some ⟨"prog by B" ++ progressEntry "A" "T" "following the plan", false⟩, []⟩,
           "t-s1-progress.md") := by
  constructor
  · exact ((c6_acknowledgment_gate "t" "s1" "A" "T" "did stuff" _
      ⟨"P", true⟩ ⟨"prog by B", false⟩ rfl rfl rfl).1).mpr rfl
  · exact (c6_acknowledgment_gate "t" "s1" "A" "T" "following the plan" _
      ⟨"P", true⟩ ⟨"prog by B", false⟩ rfl rfl rfl).2 rfl

/-! ## C9 -/

/-- C9 counterexample: in PLANNING phase with plan content OLDMARKER,
`update_plan` with content that does not start with a top-level heading
replaces the file; the resulting file carries the Revision History entry
but does not contain the previous plan content anywhere, so the prior
content is NOT preserved as the claim states. -/
theorem c9_counterexample :
    update_plan "t" "s1" "A" "T" "new stuff" c9State =
      .ok (⟨some ⟨"notes", false⟩,
            some ⟨"new stuff\n\n## Revision History\n\n### Revised - A - T\n", false⟩, none, []⟩,
           "t-s1-plan.md") ∧
    strContains "new stuff\n\n## Revision History\n\n### Revised - A - T\n" "OLDMARKER" = false ∧
    c9State.plan = some ⟨"OLDMARKER", false⟩ :=
  ⟨rfl, rfl, rfl⟩

/-- C9 (amended): in PLANNING phase, `update_plan` with nonempty content
that does not start with a top-level heading appends the Revision
History section and an attributed, timestamped Revised entry to the
INCOMING content and overwrites the plan with that; full replacement
semantics still apply and the previous plan content is not preserved. -/
theorem c9_revision_marker (task session agent ts content : String) (s : TaskState)
    (f pf : MemFile) :
    s.scratchpad = some f → s.plan = some pf → s.progress = none →
    pf.readonly = false → content ≠ "" → strStartsWith content "# " = false →
    (get_workflow_phase s).1 = .PLANNING ∧
    update_plan task session agent ts content s =
      .ok ({ s with plan := some ⟨content ++ revisionSuffix pf.content agent ts, false⟩ },
           filePath task session "plan") := by
  intro hsp hpl hpr hro hne hsw
  rcases s with ⟨sp, pl, pr, lk⟩
  obtain rfl : sp = some f := hsp
  obtain rfl : pl = some pf := hpl
  obtain rfl : pr = none := hpr
  refine ⟨rfl, ?_⟩
  rw [update_plan_planning_eq]
  simp [hro, hne, hsw]

/-- C9 witness: `c9_revision_marker` applied at a concrete PLANNING
state. -/
theorem c9_revision_marker_witness :
    update_plan "t" "s1" "B" "T2" "add step 4"
        ⟨some ⟨"n", false⟩, some ⟨"ORIG", false⟩, none, []⟩ =
      .ok (⟨some ⟨"n", false⟩, some ⟨"add step 4" ++ revisionSuffix "ORIG" "B" "T2", false⟩,
            none, []⟩,
           "t-s1-plan.md") :=
  (c9_revision_marker "t" "s1" "B" "T2" "add step 4" _ ⟨"n", false⟩ ⟨"ORIG", false⟩
    rfl rfl rfl rfl (by decide) rfl).2

/-! ## C5 -/

/-- Helper: running `append_progress` calls from a state whose progress
file already exists appends exactly the corresponding sections in order,
touching nothing else. -/
lemma appendProgressRun_existing (task session : String)
    (calls : List (String × String × String)) :
    ∀ (sp : Option MemFile) (pf qf : MemFile) (lk : List (String × String)) (s' : TaskState),
      appendProgressRun task session calls ⟨sp, some pf, some qf, lk⟩ = .ok s' →
      s'.progress = some ⟨appendAll qf.content (calls.map entryOfCall), qf.readonly⟩ ∧
      s'.plan = some pf ∧ s'.scratchpad = sp := by
  induction calls with
  | nil =>
    intro sp pf qf lk s' h
    obtain rfl : (⟨sp, some pf, some qf, lk⟩ : TaskState) = s' := by
      simpa [appendProgressRun] using h
    exact ⟨rfl, rfl, rfl⟩
  | cons head rest ih =>
    intro sp pf qf lk s' h
    obtain ⟨agent, ts, content⟩ := head
    cases hc : !(strContains qf.content agent) && !(acknowledgesPlan content) with
    | true =>
      rw [appendProgressRun, append_progress_existing_eq, hc] at h
      simp at h
    | false =>
      rw [appendProgressRun, append_progress_existing_eq, hc] at h
      simp only [Bool.false_eq_true, if_false] at h
      exact ih sp pf ⟨qf.content ++ progressEntry agent ts content, qf.readonly⟩ lk s' h

/-- C5: `append_progress` is append-only and monotone.  A successful call
on an existing progress file appends exactly one attributed section and
leaves plan and scratchpad untouched, so the old content is a prefix of
the new; the first successful call writes the template plus one section;
and N successful calls starting from a plan with no progress yield the
template followed by the N sections in order, none altered. -/
theorem c5_append_only (task session : String) :
    (∀ agent ts content (s : TaskState) s' p (qf : MemFile), s.progress = some qf →
      append_progress task session agent ts content s = .ok (s', p) →
      s'.progress = some ⟨qf.content ++ progressEntry agent ts content, qf.readonly⟩ ∧
      s'.plan = s.plan ∧ s'.scratchpad = s.scratchpad) ∧
    (∀ agent ts content (s : TaskState) s' p, s.progress = none →
      append_progress task session agent ts content s = .ok (s', p) →
      s'.progress = some ⟨progressTemplate task session ts ++ progressEntry agent ts content, false⟩) ∧
    (∀ (first : String × String × String) (rest : List (String × String × String))
        (s s' : TaskState) (pf : MemFile),
      s.plan = some pf → s.progress = none →
      appendProgressRun task session (first :: rest) s = .ok s' →
      s'.progress =
        some ⟨appendAll (progressTemplate task session first.2.1)
                ((first :: rest).map entryOfCall), false⟩) := by
  refine ⟨?_, ?_, ?_⟩
  · intro agent ts content s s' p qf hpr hok
    rcases s with ⟨sp, pl, pr, lk⟩
    obtain rfl : pr = some qf := hpr
    cases pl with
    | none => rw [append_progress_no_plan_eq] at hok; exact absurd hok (by simp)
    | some pf =>
      rw [append_progress_existing_eq] at hok
      cases hc : !(strContains qf.content agent) && !(acknowledgesPlan content) with
      | true => rw [hc] at hok; simp at hok
      | false =>
        rw [hc] at hok
        simp only [Bool.false_eq_true, if_false, Except.ok.injEq, Prod.mk.injEq] at hok
        obtain ⟨hs', _⟩ := hok
        subst hs'
        exact ⟨rfl, rfl, rfl⟩
  · intro agent ts content s s' p hpr hok
    rcases s with ⟨sp, pl, pr, lk⟩
    obtain rfl : pr = none := hpr
    cases pl with
    | none => rw [append_progress_no_plan_eq] at hok; exact absurd hok (by simp)
    | some pf =>
      rw [append_progress_first_eq, Except.ok.injEq, Prod.mk.injEq] at hok
      obtain ⟨hs', _⟩ := hok
      subst hs'
      rfl
  · intro first rest s s' pf hpl hpr h
    rcases s with ⟨sp, pl, pr, lk⟩
    obtain rfl : pl = some pf := hpl
    obtain rfl : pr = none := hpr
    obtain ⟨agent, ts, content⟩ := first
    rw [appendProgressRun, append_progress_first_eq] at h
    exact (appendProgressRun_existing task session rest sp ⟨pf.content, true⟩
      ⟨progressTemplate task session ts ++ progressEntry agent ts content, false⟩
      (lk ++ [(lockName .EXECUTION, lockContent .PLANNING .EXECUTION agent ts session)])
      s' h).1

/-- C5 witness: two successful calls on a fresh plan produce the template
followed by the two sections in order. -/
theorem c5_append_only_witness :
    ((⟨some ⟨"n", false⟩, some ⟨"p", true⟩,
        some ⟨progressTemplate "t" "s1" "T1" ++ progressEntry "A" "T1" "start the plan" ++
                progressEntry "A" "T2" "more work", false⟩,
        [(lockName .EXECUTION, lockContent .PLANNING .EXECUTION "A" "T1" "s1")]⟩ :
          TaskState)).progress =
      some ⟨appendAll (progressTemplate "t" "s1" "T1")
              ([("A", "T1", "start the plan"), ("A", "T2", "more work")].map entryOfCall),
            false⟩ := by
  exact (c5_append_only "t" "s1").2.2 ("A", "T1", "start the plan") [("A", "T2", "more work")]
    ⟨some ⟨"n", false⟩, some ⟨"p", false⟩, none, []⟩ _ ⟨"p", false⟩ rfl rfl rfl

/-! ## C8 -/

/-- C8 counterexample: in a PLANNING state with a writable plan and no
progress file, every §3 invariant holds and no file is empty, yet
`validate_file_integrity` reports the read-only issue — the code flags
every writable plan, not only plans with progress entries. -/
theorem c8_counterexample :
    specIntegrityOK c8State = true ∧
    validate_file_integrity c8State = ["Plan file is not read-only (should be immutable)"] :=
  ⟨rfl, rfl⟩

/-- C8 (amended): `validate_file_integrity` returns an empty list exactly
when plan implies scratchpad, progress implies plan, every existing plan
is read-only (with or without progress entries), and no existing file is
empty; each violated condition contributes its specific issue string. -/
theorem c8_integrity (s : TaskState) :
    (validate_file_integrity s = [] ↔
      ((s.plan.isSome = true → s.scratchpad.isSome = true) ∧
       (s.progress.isSome = true → s.plan.isSome = true) ∧
       (s.plan.isSome = true → planReadonlyB s = true) ∧
       fileEmpty s.scratchpad = false ∧ fileEmpty s.plan = false ∧
       fileEmpty s.progress = false)) ∧
    (s.plan.isSome = true → s.scratchpad.isSome = false →
      "Plan exists without scratchpad" ∈ validate_file_integrity s) ∧
    (s.progress.isSome = true → s.plan.isSome = false →
      "Progress exists without plan" ∈ validate_file_integrity s) ∧
    (s.plan.isSome = true → planReadonlyB s = false →
      "Plan file is not read-only (should be immutable)" ∈ validate_file_integrity s) ∧
    (fileEmpty s.scratchpad = true → "scratchpad file is empty" ∈ validate_file_integrity s) ∧
    (fileEmpty s.plan = true → "plan file is empty" ∈ validate_file_integrity s) ∧
    (fileEmpty s.progress = true → "progress file is empty" ∈ validate_file_integrity s) := by
  rcases s with ⟨sp, pl, pr, lk⟩
  cases sp <;> cases pl <;> cases pr <;>
    simp [validate_file_integrity, fileEmpty, planReadonlyB]

/-- C8 witness: `c8_integrity` applied at an EXECUTION state satisfying
every condition (empty issue list) and at an orphan-plan state (issue
reported). -/
theorem c8_integrity_witness :
    validate_file_integrity ⟨some ⟨"n", false⟩, some ⟨"p", true⟩, some ⟨"g", false⟩, []⟩ = [] ∧
    "Plan exists without scratchpad" ∈
      validate_file_integrity ⟨none, some ⟨"p", true⟩, none, []⟩ := by
  constructor
  · exact (c8_integrity ⟨some ⟨"n", false⟩, some ⟨"p", true⟩, some ⟨"g", false⟩, []⟩).1.mpr
      (by exact ⟨fun _ => rfl, fun _ => rfl, fun _ => rfl, rfl, rfl, rfl⟩)
  · exact (c8_integrity ⟨none, some ⟨"p", true⟩, none, []⟩).2.1 rfl rfl

/-! ## C7 -/

/-- `ratOfFrac` is exact division. -/
lemma ratOfFrac_eq_div (a b : Nat) : ratOfFrac a b = (a : ℚ) / b := by
  rw [ratOfFrac, Rat.mkRat_eq_div]
  norm_num

/-- `ratOfFrac 1 2` is one half. -/
lemma ratOfFrac_one_two : ratOfFrac 1 2 = 1 / 2 := by
  rw [ratOfFrac_eq_div]
  norm_num

/-- Zero numerator gives zero. -/
lemma ratOfFrac_zero (b : Nat) : ratOfFrac 0 b = 0 := by
  rw [ratOfFrac_eq_div]
  simp

/-- Fractions of naturals are nonnegative. -/
lemma ratOfFrac_nonneg (a b : Nat) : 0 ≤ ratOfFrac a b := by
  rw [ratOfFrac_eq_div]
  positivity

/-- Paragraph scores are nonnegative. -/
lemma paraScore_nonneg (nw : Finset String) (para : String) : 0 ≤ paraScore nw para := by
  simp only [paraScore]
  split
  · exact le_refl 0
  · exact ratOfFrac_nonneg ..

/-- The empty existing content has no words, so the spec overlap is 0. -/
lemma specOverlapFrac_empty (n : String) : specOverlapFrac n "" = 0 := by
  simp only [specOverlapFrac]
  have hwe : wordsOf (pyNormalize "") = (∅ : Finset String) := by decide
  rw [hwe]
  split
  · rfl
  · rw [Finset.inter_empty, Finset.card_empty, ratOfFrac_zero]

/-- Invariants of the best-match fold of `find_similar_content`: the
running score never decreases; every scanned paragraph either scores no
more than the final score or no more than 0.5; and the final state is
either the initial one or records some scanned paragraph together with
its score, which exceeds 0.5. -/
lemma bestStep_fold (nw : Finset String) (ps : List String) :
    ∀ b0 : Option String × ℚ,
      b0.2 ≤ (ps.foldl (bestStep nw) b0).2 ∧
      (∀ q ∈ ps, paraScore nw q ≤ (ps.foldl (bestStep nw) b0).2 ∨
        paraScore nw q ≤ ratOfFrac 1 2) ∧
      ((ps.foldl (bestStep nw) b0) = b0 ∨
        ∃ q ∈ ps, (ps.foldl (bestStep nw) b0).1 = some q ∧
          (ps.foldl (bestStep nw) b0).2 = paraScore nw q ∧
          ratOfFrac 1 2 < (ps.foldl (bestStep nw) b0).2) := by
  induction ps with
  | nil => exact fun b0 => ⟨le_refl _, by simp, Or.inl rfl⟩
  | cons p rest ih =>
    intro b0
    rw [List.foldl_cons]
    by_cases hc : paraScore nw p > b0.2 ∧ paraScore nw p > ratOfFrac 1 2
    · have hb1 : bestStep nw b0 p = (some p, paraScore nw p) := by
        simp only [bestStep]
        rw [if_pos hc]
      rw [hb1]
      obtain ⟨ih1, ih2, ih3⟩ := ih (some p, paraScore nw p)
      refine ⟨le_trans (le_of_lt hc.1) ih1, ?_, ?_⟩
      · intro q hq
        rcases List.mem_cons.mp hq with rfl | hq'
        · exact Or.inl ih1
        · exact ih2 q hq'
      · rcases ih3 with heq | ⟨q, hq, h1, h2, h3⟩
        · right
          refine ⟨p, List.mem_cons_self .., ?_, ?_, ?_⟩
          · rw [heq]
          · rw [heq]
          · rw [heq]; exact hc.2
        · exact Or.inr ⟨q, List.mem_cons_of_mem _ hq, h1, h2, h3⟩
    · have hb1 : bestStep nw b0 p = b0 := by
        simp only [bestStep]
        rw [if_neg hc]
      rw [hb1]
      obtain ⟨ih1, ih2, ih3⟩ := ih b0
      refine ⟨ih1, ?_, ?_⟩
      · intro q hq
        rcases List.mem_cons.mp hq with rfl | hq'
        · rcases not_and_or.mp hc with h | h
          · exact Or.inl (le_trans (not_lt.mp h) ih1)
          · exact Or.inr (not_lt.mp h)
        · exact ih2 q hq'
      · rcases ih3 with heq | ⟨q, hq, h1, h2, h3⟩
        · exact Or.inl heq
        · exact Or.inr ⟨q, List.mem_cons_of_mem _ hq, h1, h2, h3⟩

/-- C7 counterexample: overall overlap 4/6 is below the 0.70 duplicate
threshold, so the code returns none; but under the claim as stated —
paragraphs scored by THE SAME overlap formula (denominator = word count
of the NEW content) with no duplicate gate — the first paragraph scores
4/6 > 0.50 and is returned. -/
theorem c7_counterexample :
    find_similar_content "alpha beta gamma delta epsilon zeta"
        "alpha beta gamma delta\n\nsomething unrelated here entirely" = none ∧
    findSimilarClaimed "alpha beta gamma delta epsilon zeta"
        "alpha beta gamma delta\n\nsomething unrelated here entirely" =
      some "alpha beta gamma delta" := by
  constructor
  · decide
  · decide

/-- C7 (amended): `is_content_duplicate` is exactly the spec formula —
normalized new content at least 20 characters and overlap
`|words(new) ∩ words(existing)| / |words(new)|` above 0.70;
`find_similar_content` returns none unless `is_content_duplicate` holds,
and otherwise scores each blank-line paragraph by
`|words(new) ∩ words(para)| / |words(para)|` (denominator = word count
of the PARAGRAPH) and returns a highest-scoring paragraph above 0.50,
truncated to 300 characters, or none when no paragraph qualifies. -/
theorem c7_heuristics :
    (∀ n e, is_content_duplicate n e = specDuplicate n e) ∧
    (∀ n e, is_content_duplicate n e = false → find_similar_content n e = none) ∧
    (∀ n e r, find_similar_content n e = some r →
      ∃ p ∈ paragraphsOf e,
        1 / 2 < paraScore (wordsOf (strLower n)) p ∧
        r = (if p.length > 300 then strTake p 300 ++ "..." else p) ∧
        ∀ q ∈ paragraphsOf e,
          paraScore (wordsOf (strLower n)) q ≤ paraScore (wordsOf (strLower n)) p) ∧
    (∀ n e, is_content_duplicate n e = true → find_similar_content n e = none →
      ∀ q ∈ paragraphsOf e, paraScore (wordsOf (strLower n)) q ≤ 1 / 2) := by
  refine ⟨?_, ?_, ?_, ?_⟩
  · intro n e
    by_cases hne : (e == "" || n == "") = true
    · rw [is_content_duplicate, if_pos hne]
      have hne' : e = "" ∨ n = "" := by simpa using hne
      rcases hne' with rfl | rfl
      · rw [specDuplicate, specOverlapFrac_empty]
        have h0 : decide (ratOfFrac 7 10 < (0 : ℚ)) = false := by decide
        rw [h0, Bool.and_false]
      · rw [specDuplicate]
        have h0 : decide (20 ≤ (pyNormalize "").length) = false := by decide
        rw [h0, Bool.false_and]
    · rw [is_content_duplicate, if_neg hne]
      by_cases hlen : (pyNormalize n).length < 20
      · rw [if_pos hlen, specDuplicate, decide_eq_false (not_le.mpr hlen), Bool.false_and]
      · rw [if_neg hlen, specDuplicate, decide_eq_true (not_lt.mp hlen), Bool.true_and]
        simp only [specOverlapFrac]
        by_cases hcard : (wordsOf (pyNormalize n)).card = 0
        · rw [if_pos hcard]
          rw [decide_eq_false (by rw [if_pos hcard]; decide)]
        · rw [if_neg hcard]
          exact decide_eq_decide.mpr (by rw [if_neg hcard])
  · intro n e h
    simp [find_similar_content, h]
  · intro n e r h
    cases hdup : is_content_duplicate n e with
    | false => simp [find_similar_content, hdup] at h
    | true =>
      rw [find_similar_content, hdup] at h
      simp only [Bool.not_true, Bool.false_eq_true, if_false] at h
      obtain ⟨h1, h2, h3⟩ :=
        bestStep_fold (wordsOf (strLower n)) (paragraphsOf e) (none, 0)
      rcases h3 with heq | ⟨q, hq, hq1, hq2, hq3⟩
      · rw [heq] at h
        simp at h
      · rw [hq1] at h
        dsimp only at h
        refine ⟨q, hq, ?_, ?_, ?_⟩
        · rw [← hq2, ← ratOfFrac_one_two]; exact hq3
        · by_cases hql : q.length > 300
          · rw [if_pos hql] at h
            rw [if_pos hql]
            exact (Option.some_inj.mp h).symm
          · rw [if_neg hql] at h
            rw [if_neg hql]
            exact (Option.some_inj.mp h).symm
        · intro q' hq'
          rcases h2 q' hq' with hle | hle
          · rw [← hq2]; exact hle
          · exact le_trans hle (le_of_lt (hq2 ▸ hq3))
  · intro n e hdup hnone q hq
    rw [find_similar_content, hdup] at hnone
    simp only [Bool.not_true, Bool.false_eq_true, if_false] at hnone
    obtain ⟨h1, h2, h3⟩ :=
      bestStep_fold (wordsOf (strLower n)) (paragraphsOf e) (none, 0)
    rw [← ratOfFrac_one_two]
    rcases h3 with heq | ⟨q', hq', hq1, hq2, hq3⟩
    · rcases h2 q hq with hle | hle
      · rw [heq] at hle
        exact le_trans hle (by rw [ratOfFrac_one_two]; norm_num)
      · exact hle
    · rw [hq1] at hnone
      dsimp only at hnone
      split at hnone <;> simp at hnone

/-- C7 witness: the none branch of `c7_heuristics` at a concrete
non-duplicate input. -/
theorem c7_heuristics_witness :
    find_similar_content "tiny" "tiny notes here" = none :=
  c7_heuristics.2.1 "tiny" "tiny notes here" (by decide)

end ClaudeMemory
